import Mathlib

/-!
# Verification of the 2D physics/collision engine

Shallow embedding of the engine's core, checked against its specification.

* The collision detector (`src/library/collision.c`) is embedded verbatim over
  the real numbers: `get_edges`, `get_max_min_projections`,
  `centroid_from_vertices`, the per-edge separating-axis loop of
  `compare_collision` (as `sat_axis_loop`), and `find_collision`.
  C `double`s are modelled as reals; `find_collision`'s `min_overlap`
  out-parameters are modelled as a second returned value, initialised to
  `DBL_MAX` exactly as `find_collision` initialises them.
* The body integrator and the collision-handler trigger have their
  implementations outside the available sources (only `body.h` /
  `forces.h` and callers are present); those parts are modelled from the
  specification and say so in their doc comments.
-/

/-- 2D vector, `vector_t` of `vector.h` (a pair of doubles, modelled as reals).
Modelled from the spec: `vector.c` is not in the sources; the vector
operations below are the standard componentwise ones the spec lists
(add, subtract, scale, dot product, magnitude, negation). -/
structure vector_t where
  x : ℝ
  y : ℝ

/-- The zero vector `VEC_ZERO`. -/
def VEC_ZERO : vector_t := ⟨0, 0⟩

/-- Componentwise vector addition `vec_add`. -/
def vec_add (a b : vector_t) : vector_t := ⟨a.x + b.x, a.y + b.y⟩

/-- Componentwise vector subtraction `vec_subtract`. -/
def vec_subtract (a b : vector_t) : vector_t := ⟨a.x - b.x, a.y - b.y⟩

/-- Scalar multiplication `vec_multiply`. -/
def vec_multiply (c : ℝ) (v : vector_t) : vector_t := ⟨c * v.x, c * v.y⟩

/-- Vector negation `vec_negate`. -/
def vec_negate (v : vector_t) : vector_t := ⟨-v.x, -v.y⟩

/-- Dot product `vec_dot`. -/
def vec_dot (a b : vector_t) : ℝ := a.x * b.x + a.y * b.y

/-- Euclidean magnitude `vec_get_length`. -/
noncomputable def vec_get_length (v : vector_t) : ℝ := Real.sqrt (v.x ^ 2 + v.y ^ 2)

/-- `DBL_MAX` of `<float.h>`. -/
def DBL_MAX : ℝ := 1.7976931348623157e308

/-- `collision_info_t`: whether two shapes collided and, if so, the axis. -/
structure collision_info_t where
  collided : Bool
  axis : vector_t

/-- `get_edges` (collision.c:16-29): edge `i` is
`vertex[i % n] - vertex[(i+1) % n]`, so the edge list is the vertex list
minus its own left-rotation. -/
def get_edges (shape : List vector_t) : List vector_t :=
  List.zipWith vec_subtract shape (shape.drop 1 ++ shape.take 1)

/-- `get_max_min_projections` (collision.c:40-57): fold over the vertices,
starting from `(-DBL_MAX, DBL_MAX)`, keeping the largest and smallest dot
product with `unit_axis`; returned as a vector `(max, min)`. -/
noncomputable def get_max_min_projections (shape : List vector_t) (unit_axis : vector_t) : vector_t :=
  shape.foldl
    (fun acc vertex =>
      let projection := vec_dot vertex unit_axis
      ⟨if projection > acc.x then projection else acc.x,
       if projection < acc.y then projection else acc.y⟩)
    ⟨-DBL_MAX, DBL_MAX⟩

/-- `centroid_from_vertices` (collision.c:59-67): the plain average of the
vertex list (sum of the vertices scaled by `1/n`) — not the area-weighted
shoelace centroid. -/
noncomputable def centroid_from_vertices (vertices : List vector_t) : vector_t :=
  vec_multiply (1 / (vertices.length : ℝ)) (vertices.foldl vec_add VEC_ZERO)

/-- The candidate axis of an edge (collision.c:93): the edge rotated 90°,
`{-edge.y, edge.x}`. -/
def axis_of (edge : vector_t) : vector_t := ⟨-edge.y, edge.x⟩

/-- The normalized candidate axis of an edge (collision.c:99):
`vec_multiply (1.0 / length) axis`. -/
noncomputable def unit_axis_of (edge : vector_t) : vector_t :=
  vec_multiply (1 / vec_get_length (axis_of edge)) (axis_of edge)

/-- The 1D overlap of the two shapes' projection intervals along axis `u`
(collision.c:110): `fmin(max1, max2) - fmax(min1, min2)`. -/
noncomputable def overlap_on (shape1 shape2 : List vector_t) (u : vector_t) : ℝ :=
  min (get_max_min_projections shape1 u).x (get_max_min_projections shape2 u).x -
    max (get_max_min_projections shape1 u).y (get_max_min_projections shape2 u).y

/-- The loop of `compare_collision` (collision.c:90-116), one step per edge of
`shape1`, carrying `current_min_overlap` and `axis_min_overlap`.
A degenerate axis (length below `1e-9`) is skipped (`continue`); a separating
axis returns `none` (the early `return` with `collided = false`); otherwise the
running minimum overlap and its axis are updated when strictly smaller. -/
noncomputable def sat_axis_loop (shape1 shape2 : List vector_t) :
    List vector_t → ℝ → vector_t → Option (ℝ × vector_t)
  | [], current_min_overlap, axis_min_overlap =>
      some (current_min_overlap, axis_min_overlap)
  | edge :: rest, current_min_overlap, axis_min_overlap =>
      if vec_get_length (axis_of edge) < 1e-9 then
        sat_axis_loop shape1 shape2 rest current_min_overlap axis_min_overlap
      else
        let unit_axis := unit_axis_of edge
        let projections1 := get_max_min_projections shape1 unit_axis
        let projections2 := get_max_min_projections shape2 unit_axis
        if projections1.x ≤ projections2.y ∨ projections2.x ≤ projections1.y then
          none
        else
          if overlap_on shape1 shape2 unit_axis < current_min_overlap then
            sat_axis_loop shape1 shape2 rest (overlap_on shape1 shape2 unit_axis) unit_axis
          else
            sat_axis_loop shape1 shape2 rest current_min_overlap axis_min_overlap

/-- `compare_collision` (collision.c:79-133). The `min_overlap` out-parameter
is modelled as the second component of the result; it keeps the caller's
initial value `DBL_MAX` when the shapes do not collide, exactly as
`find_collision` initialises `c1_overlap` / `c2_overlap` and
`compare_collision` writes `*min_overlap` only on the collided path.
On the collided path the minimum-overlap axis is negated when its dot product
with the vector between the two shapes' (vertex-average) centroids is
negative (collision.c:120-131). -/
noncomputable def compare_collision (shape1 shape2 : List vector_t) :
    collision_info_t × ℝ :=
  match sat_axis_loop shape1 shape2 (get_edges shape1) DBL_MAX VEC_ZERO with
  | none => (⟨false, VEC_ZERO⟩, DBL_MAX)
  | some (current_min_overlap, axis_min_overlap) =>
      let centroid1 := centroid_from_vertices shape1
      let centroid2 := centroid_from_vertices shape2
      let c1_to_c2 := vec_subtract centroid2 centroid1
      let axis :=
        if vec_dot axis_min_overlap c1_to_c2 < 0 then vec_negate axis_min_overlap
        else axis_min_overlap
      (⟨true, axis⟩, current_min_overlap)

/-- `find_collision` (collision.c:135-160), on the bodies' shapes (the C
function fetches `body_get_shape` of each body and works on the two vertex
lists). Runs `compare_collision` in both orders and, when both passes
collide, returns the result of the pass with the strictly smaller recorded
overlap (the second pass on ties). -/
noncomputable def find_collision (shape1 shape2 : List vector_t) : collision_info_t :=
  let collision1 := compare_collision shape1 shape2
  let collision2 := compare_collision shape2 shape1
  if collision1.1.collided = false then collision1.1
  else if collision2.1.collided = false then collision2.1
  else if collision1.2 < collision2.2 then collision1.1
  else collision2.1

/-- The spec's area-weighted (shoelace) centroid of a polygon.
Modelled from the spec: §3 says "a body's world centroid equals the
area-weighted centroid of `shape`'s vertices (shoelace-based computation)";
this standard formula is stated here only to compare the spec's wording with
what `collision.c` actually computes (`centroid_from_vertices`). -/
noncomputable def spec_shoelace_centroid (vertices : List vector_t) : vector_t :=
  let next := vertices.drop 1 ++ vertices.take 1
  let crosses := List.zipWith (fun a b => a.x * b.y - b.x * a.y) vertices next
  let area2 := crosses.sum
  let cx := (List.zipWith (fun (p : vector_t × vector_t) c => (p.1.x + p.2.x) * c)
    (vertices.zip next) crosses).sum
  let cy := (List.zipWith (fun (p : vector_t × vector_t) c => (p.1.y + p.2.y) * c)
    (vertices.zip next) crosses).sum
  ⟨cx / (3 * area2), cy / (3 * area2)⟩

/-- 2D vector with exact rational components, for the body-integration model
(no square roots occur there, so the rational fragment of double arithmetic
is exact and executable). -/
structure qvec where
  x : ℚ
  y : ℚ
deriving DecidableEq

/-- Zero rational vector. -/
def qvec_zero : qvec := ⟨0, 0⟩

/-- Rational vector addition. -/
def qvec_add (a b : qvec) : qvec := ⟨a.x + b.x, a.y + b.y⟩

/-- Rational scalar multiplication. -/
def qvec_scale (c : ℚ) (v : qvec) : qvec := ⟨c * v.x, c * v.y⟩

/-- A body's mass: a positive real or the infinite sentinel.
Modelled from the spec: §3 says mass is "positive real, or a sentinel
'infinite mass' meaning immovable"; `body.h` documents `INFINITY` as the
sentinel value. -/
inductive mass_t
  | finite (m : ℚ)
  | inf
deriving DecidableEq

/-- Body state.
Modelled from the spec: `body.c` is not in the sources (only `body.h`, the
`struct body` field list, and callers are). Per spec §3 a body carries its
shape (whose centroid is the body's position), velocity, accumulated force
and impulse, mass and the monotonic `removed` flag; the position is
represented here directly by the centroid, and the fields with no effect on
the claims (color, rotation, info tag) are omitted. -/
structure body_model where
  centroid : qvec
  velocity : qvec
  force : qvec
  impulse : qvec
  mass : mass_t
  removed : Bool
deriving DecidableEq

/-- `body_init`.
Modelled from the spec: `body.h` says the body is initially at rest and
`body_is_removed` returns false until `body_remove` is called; accumulators
start at zero (they are reset at every tick boundary). -/
def body_init (centroid : qvec) (mass : mass_t) : body_model :=
  { centroid := centroid, velocity := qvec_zero, force := qvec_zero,
    impulse := qvec_zero, mass := mass, removed := false }

/-- `body_add_force`: additive accumulation over the current tick
(`body.h`: "If multiple forces are applied in the same tick, they are
added"). Modelled from the spec. -/
def body_add_force (body : body_model) (force : qvec) : body_model :=
  { body with force := qvec_add body.force force }

/-- `body_add_impulse`: additive accumulation over the current tick.
Modelled from the spec. -/
def body_add_impulse (body : body_model) (impulse : qvec) : body_model :=
  { body with impulse := qvec_add body.impulse impulse }

/-- `body_set_velocity`. Modelled from the spec. -/
def body_set_velocity (body : body_model) (v : qvec) : body_model :=
  { body with velocity := v }

/-- `body_set_centroid`: relocating translates the whole body, so its state
here is just the new centroid. Modelled from the spec. -/
def body_set_centroid (body : body_model) (c : qvec) : body_model :=
  { body with centroid := c }

/-- `body_remove`: marks the body for removal; on an already-removed body it
"does nothing" (`body.h`), giving a monotonic flag. Modelled from the spec. -/
def body_remove (body : body_model) : body_model :=
  { body with removed := true }

/-- `body_is_removed`. Modelled from the spec. -/
def body_is_removed (body : body_model) : Bool := body.removed

/-- `body_tick`.
Modelled from the spec: §4.1's integration algorithm — acceleration is
`force / mass` and the impulse-derived velocity delta is `impulse / mass`
(both zero for the infinite-mass sentinel); the new velocity is
`v + a·dt + impulse/mass`; the body translates by the average of the old and
new velocities times `dt` (trapezoidal update, as `body.h` also documents);
the force and impulse accumulators are reset to zero. -/
def body_tick (body : body_model) (dt : ℚ) : body_model :=
  let acceleration :=
    match body.mass with
    | .finite m => qvec_scale (1 / m) body.force
    | .inf => qvec_zero
  let impulse_dv :=
    match body.mass with
    | .finite m => qvec_scale (1 / m) body.impulse
    | .inf => qvec_zero
  let new_velocity := qvec_add (qvec_add body.velocity (qvec_scale dt acceleration)) impulse_dv
  { body with
    centroid := qvec_add body.centroid
      (qvec_scale (dt / 2) (qvec_add body.velocity new_velocity)),
    velocity := new_velocity,
    force := qvec_zero,
    impulse := qvec_zero }

/-- Per-tick collision-handler trigger of `create_collision`.
Modelled from the spec: `forces.c` is not in the sources (only `forces.h`
and callers are). Spec §4.3: the registration keeps one bit of state, "were
they colliding last tick"; the handler fires exactly when overlap is
detected now and was not detected on the previous tick. Given the list of
per-tick overlap outcomes of the detector for the pair and the initial
"were colliding" bit (false at registration), returns for each tick whether
the handler fires on that tick. -/
def collision_trigger_run : List Bool → Bool → List Bool
  | [], _ => []
  | now :: rest, prev => (now && !prev) :: collision_trigger_run rest now

/-- A 3-4-5 right triangle with vertices `(0,0), (3,0), (0,4)` (counterclockwise);
all its edge axes have integer length (3, 5 and 4). -/
noncomputable def tri_T : List vector_t := [⟨0, 0⟩, ⟨3, 0⟩, ⟨0, 4⟩]

/-- An axis-aligned square of side 2 centered at `(2,2)` (counterclockwise),
positioned so that its corner `(1,1)` pokes through `tri_T`'s hypotenuse. -/
noncomputable def sq_S : List vector_t := [⟨1, 1⟩, ⟨3, 1⟩, ⟨3, 3⟩, ⟨1, 3⟩]

/-- Axis-aligned unit square centered at the origin, vertices in the order the
game's rectangle constructor produces (counterclockwise from bottom-left). -/
noncomputable def sq_origin : List vector_t :=
  [⟨-(1/2), -(1/2)⟩, ⟨1/2, -(1/2)⟩, ⟨1/2, 1/2⟩, ⟨-(1/2), 1/2⟩]

/-- Axis-aligned unit square centered at `(1/2, 0)`. -/
noncomputable def sq_half : List vector_t :=
  [⟨0, -(1/2)⟩, ⟨1, -(1/2)⟩, ⟨1, 1/2⟩, ⟨0, 1/2⟩]

/-- Axis-aligned unit square centered at `(3, 0)`. -/
noncomputable def sq_three : List vector_t :=
  [⟨5/2, -(1/2)⟩, ⟨7/2, -(1/2)⟩, ⟨7/2, 1/2⟩, ⟨5/2, 1/2⟩]

/-- Axis-aligned unit square centered at `(1, 0)`: it exactly touches
`sq_origin` along the line `x = 1/2` without overlapping it. -/
noncomputable def sq_touch : List vector_t :=
  [⟨1/2, -(1/2)⟩, ⟨3/2, -(1/2)⟩, ⟨3/2, 1/2⟩, ⟨1/2, 1/2⟩]

/-- An edge is non-degenerate when its rotated axis is at least the `1e-9`
epsilon long, i.e. when the loop of `compare_collision` does not `continue`
past it (collision.c:95-98). -/
def edge_nondegenerate (edge : vector_t) : Prop :=
  ¬ vec_get_length (axis_of edge) < 1e-9

/-- The axis pipeline of `compare_collision`'s loop (collision.c:93-99)
in isolation: one candidate axis per edge — the edge rotated 90° — dropped
when its length is below the `1e-9` epsilon and otherwise normalized by
dividing by that length. -/
noncomputable def normalized_axes (shape : List vector_t) : List vector_t :=
  (get_edges shape).filterMap (fun edge =>
    let axis := axis_of edge
    let length := vec_get_length axis
    if length < 1e-9 then none
    else some (vec_multiply (1 / length) axis))

/-- What one pass of the separating-axis test actually guarantees about the
axis it reports, with `p` the shape whose edges supplied the candidate axes
and `q` the other shape: the axis has nonnegative dot product with the
vector from `p`'s vertex-average centroid to `q`'s vertex-average centroid
(it was negated if that dot product was negative); every non-degenerate edge
axis of `p` strictly overlapped and has overlap at least the reported
minimum `ov`; and the axis is (up to that sign flip) a normalized edge axis
of `p` achieving `ov` — unless no axis ever updated the running minimum, in
which case the reported overlap is still the initial `DBL_MAX` and the axis
the initial zero vector. -/
def oriented_min_axis (p q : List vector_t) (ax : vector_t) (ov : ℝ) : Prop :=
  0 ≤ vec_dot ax (vec_subtract (centroid_from_vertices q) (centroid_from_vertices p)) ∧
  (∀ e ∈ get_edges p, edge_nondegenerate e →
    ((get_max_min_projections q (unit_axis_of e)).y < (get_max_min_projections p (unit_axis_of e)).x ∧
     (get_max_min_projections p (unit_axis_of e)).y < (get_max_min_projections q (unit_axis_of e)).x) ∧
    ov ≤ overlap_on p q (unit_axis_of e)) ∧
  ((ov = DBL_MAX ∧ ax = VEC_ZERO) ∨
    ∃ e ∈ get_edges p, edge_nondegenerate e ∧ ov = overlap_on p q (unit_axis_of e) ∧
      (ax = unit_axis_of e ∨ ax = vec_negate (unit_axis_of e)))

lemma collision_trigger_run_true_seg (n : ℕ) (l : List Bool) :
    collision_trigger_run (List.replicate n true ++ l) true =
      List.replicate n false ++ collision_trigger_run l true := by
  induction n with
  | zero => simp
  | succ k ih => simp [List.replicate_succ, collision_trigger_run, ih]

lemma collision_trigger_run_replicate_true (n : ℕ) :
    collision_trigger_run (List.replicate n true) true = List.replicate n false := by
  simpa [collision_trigger_run] using collision_trigger_run_true_seg n []

lemma collision_trigger_run_false_seg0 (n : ℕ) (l : List Bool) :
    collision_trigger_run (List.replicate n false ++ l) false =
      List.replicate n false ++ collision_trigger_run l false := by
  induction n with
  | zero => simp
  | succ k ih => simp [List.replicate_succ, collision_trigger_run, ih]

lemma collision_trigger_run_false_seg (k : ℕ) (l : List Bool) (prev : Bool) :
    collision_trigger_run (List.replicate (k + 1) false ++ l) prev =
      List.replicate (k + 1) false ++ collision_trigger_run l false := by
  simp [List.replicate_succ, collision_trigger_run, collision_trigger_run_false_seg0]

/-- **C5.** A body of mass 2 at rest with no accumulated impulse, given a
constant force `(0, 10)` and ticked with `dt = 1`, ends with velocity
`(0, 5)` and its centroid translated by exactly `(0, 5/2)` — the trapezoidal
average of the old velocity 0 and the new velocity 5 over `dt = 1` — with
both accumulators reset. -/
theorem body_tick_mass_two_force_ten :
    body_tick (body_add_force (body_init ⟨0, 0⟩ (mass_t.finite 2)) ⟨0, 10⟩) 1 =
      { centroid := ⟨0, 5/2⟩, velocity := ⟨0, 5⟩, force := qvec_zero,
        impulse := qvec_zero, mass := mass_t.finite 2, removed := false } := by
  simp only [body_init, body_add_force, body_tick, qvec_add, qvec_scale, qvec_zero]
  norm_num

/-- **C6.** An infinite-mass body experiences no velocity change and no
force- or impulse-induced displacement in `body_tick`: its velocity is
unchanged, its centroid moves only by `velocity · dt` (zero displacement
whenever its velocity was not set to a nonzero value directly), and the tick
result is entirely independent of the accumulated force and impulse. -/
theorem body_tick_infinite_mass (b : body_model) (dt : ℚ) (f j : qvec)
    (h : b.mass = mass_t.inf) :
    (body_tick b dt).velocity = b.velocity ∧
    (body_tick b dt).centroid = qvec_add b.centroid (qvec_scale dt b.velocity) ∧
    body_tick { b with force := f, impulse := j } dt = body_tick b dt := by
  obtain ⟨⟨cx, cy⟩, ⟨vx, vy⟩, ⟨fx, fy⟩, ⟨ix, iy⟩, m, r⟩ := b
  have hm : m = mass_t.inf := h
  subst hm
  refine ⟨?_, ?_, rfl⟩ <;>
    · simp only [body_tick, qvec_add, qvec_scale, qvec_zero, qvec.mk.injEq]
      constructor <;> ring

/-- Witness for C6 at a concrete input: an infinite-mass body with velocity
`(2,0)`, force `(3,4)` and impulse `(1,2)`, ticked with `dt = 1`. -/
theorem body_tick_infinite_mass_witness :
    (body_tick ⟨⟨1, 2⟩, ⟨2, 0⟩, ⟨3, 4⟩, ⟨1, 2⟩, mass_t.inf, false⟩ 1).velocity = ⟨2, 0⟩ ∧
    (body_tick ⟨⟨1, 2⟩, ⟨2, 0⟩, ⟨3, 4⟩, ⟨1, 2⟩, mass_t.inf, false⟩ 1).centroid =
      qvec_add ⟨1, 2⟩ (qvec_scale 1 ⟨2, 0⟩) ∧
    body_tick ⟨⟨1, 2⟩, ⟨2, 0⟩, ⟨5, 5⟩, ⟨7, 7⟩, mass_t.inf, false⟩ 1 =
      body_tick ⟨⟨1, 2⟩, ⟨2, 0⟩, ⟨3, 4⟩, ⟨1, 2⟩, mass_t.inf, false⟩ 1 :=
  body_tick_infinite_mass ⟨⟨1, 2⟩, ⟨2, 0⟩, ⟨3, 4⟩, ⟨1, 2⟩, mass_t.inf, false⟩ 1 ⟨5, 5⟩ ⟨7, 7⟩ rfl

/-- **C9.** The removed flag is monotonic: it is false at construction,
`body_remove` makes `body_is_removed` return true, removing an
already-removed body is a no-op leaving the state unchanged, and every other
operation (tick, force/impulse accumulation, setters) preserves the flag. -/
theorem body_removed_monotonic (b : body_model) (c v f j : qvec) (dt : ℚ) (m : mass_t) :
    body_is_removed (body_init c m) = false ∧
    body_is_removed (body_remove b) = true ∧
    body_remove (body_remove b) = body_remove b ∧
    body_is_removed (body_tick b dt) = body_is_removed b ∧
    body_is_removed (body_add_force b f) = body_is_removed b ∧
    body_is_removed (body_add_impulse b j) = body_is_removed b ∧
    body_is_removed (body_set_velocity b v) = body_is_removed b ∧
    body_is_removed (body_set_centroid b c) = body_is_removed b := by
  refine ⟨rfl, rfl, rfl, ?_, rfl, rfl, rfl, rfl⟩
  cases b with
  | mk bc bv bf bi bm br => cases bm <;> rfl

/-- **C7.** A handler registered with `create_collision` fires exactly once
per continuous-overlap episode, at the first tick where overlap is detected:
over a run of `a ≥ 1` overlapping ticks, then `b ≥ 1` separated ticks, then
`c ≥ 1` overlapping ticks (starting from the registration state "not
colliding"), it fires at the first tick of each of the two overlap episodes
and at no other tick; in particular over the first continuous episode alone
it fires exactly once, at its first tick. -/
theorem collision_trigger_fires_once_per_episode (a b c : ℕ)
    (ha : 1 ≤ a) (hb : 1 ≤ b) (hc : 1 ≤ c) :
    collision_trigger_run (List.replicate a true) false =
      true :: List.replicate (a - 1) false ∧
    collision_trigger_run
        (List.replicate a true ++ List.replicate b false ++ List.replicate c true) false =
      (true :: List.replicate (a - 1) false) ++ List.replicate b false ++
        (true :: List.replicate (c - 1) false) := by
  obtain ⟨a', rfl⟩ : ∃ a', a = a' + 1 := ⟨a - 1, by omega⟩
  obtain ⟨b', rfl⟩ : ∃ b', b = b' + 1 := ⟨b - 1, by omega⟩
  obtain ⟨c', rfl⟩ : ∃ c', c = c' + 1 := ⟨c - 1, by omega⟩
  have hfirst : ∀ (n : ℕ) (l : List Bool),
      collision_trigger_run (List.replicate (n + 1) true ++ l) false =
        (true :: List.replicate n false) ++ collision_trigger_run l true := by
    intro n l
    simp [List.replicate_succ, collision_trigger_run, collision_trigger_run_true_seg]
  constructor
  · simpa [collision_trigger_run] using hfirst a' []
  · rw [List.append_assoc, hfirst a', collision_trigger_run_false_seg]
    simp [List.replicate_succ, collision_trigger_run,
      collision_trigger_run_replicate_true]

/-- Witness for C7: five overlapping ticks, two separated ticks, three
overlapping ticks — the handler fires exactly at ticks 0 and 7. -/
theorem collision_trigger_fires_once_per_episode_witness :
    collision_trigger_run (List.replicate 5 true) false =
      true :: List.replicate 4 false ∧
    collision_trigger_run
        (List.replicate 5 true ++ List.replicate 2 false ++ List.replicate 3 true) false =
      (true :: List.replicate 4 false) ++ List.replicate 2 false ++
        (true :: List.replicate 2 false) :=
  collision_trigger_fires_once_per_episode 5 2 3 (by decide) (by decide) (by decide)

lemma vec_dot_negate_left (v w : vector_t) :
    vec_dot (vec_negate v) w = -vec_dot v w := by
  simp [vec_dot, vec_negate]; ring

lemma vec_dot_zero_left (w : vector_t) : vec_dot VEC_ZERO w = 0 := by
  simp [vec_dot, VEC_ZERO]

lemma vec_get_length_eval (v : vector_t) (c : ℝ) (hc : 0 ≤ c)
    (h : v.x ^ 2 + v.y ^ 2 = c ^ 2) : vec_get_length v = c := by
  unfold vec_get_length
  rw [h, Real.sqrt_sq hc]

lemma sat_axis_loop_cons_deg (s1 s2 : List vector_t) (e : vector_t)
    (rest : List vector_t) (m : ℝ) (a : vector_t)
    (hdeg : vec_get_length (axis_of e) < 1e-9) :
    sat_axis_loop s1 s2 (e :: rest) m a = sat_axis_loop s1 s2 rest m a := by
  rw [sat_axis_loop, if_pos hdeg]

lemma sat_axis_loop_cons_sep (s1 s2 : List vector_t) (e : vector_t)
    (rest : List vector_t) (m : ℝ) (a : vector_t)
    (hnd : ¬ vec_get_length (axis_of e) < 1e-9)
    (hsep : (get_max_min_projections s1 (unit_axis_of e)).x ≤
        (get_max_min_projections s2 (unit_axis_of e)).y ∨
      (get_max_min_projections s2 (unit_axis_of e)).x ≤
        (get_max_min_projections s1 (unit_axis_of e)).y) :
    sat_axis_loop s1 s2 (e :: rest) m a = none := by
  rw [sat_axis_loop, if_neg hnd]
  simp only [if_pos hsep]

lemma sat_axis_loop_cons_step (s1 s2 : List vector_t) (e : vector_t)
    (rest : List vector_t) (m : ℝ) (a : vector_t)
    (hnd : ¬ vec_get_length (axis_of e) < 1e-9)
    (hsep : ¬ ((get_max_min_projections s1 (unit_axis_of e)).x ≤
        (get_max_min_projections s2 (unit_axis_of e)).y ∨
      (get_max_min_projections s2 (unit_axis_of e)).x ≤
        (get_max_min_projections s1 (unit_axis_of e)).y)) :
    sat_axis_loop s1 s2 (e :: rest) m a =
      if overlap_on s1 s2 (unit_axis_of e) < m then
        sat_axis_loop s1 s2 rest (overlap_on s1 s2 (unit_axis_of e)) (unit_axis_of e)
      else sat_axis_loop s1 s2 rest m a := by
  rw [sat_axis_loop, if_neg hnd]
  simp only [if_neg hsep]

lemma sat_axis_loop_none_of_sep (s1 s2 : List vector_t) (l : List vector_t)
    (m : ℝ) (a : vector_t)
    (h : ∃ e ∈ l, edge_nondegenerate e ∧
      ((get_max_min_projections s1 (unit_axis_of e)).x ≤
          (get_max_min_projections s2 (unit_axis_of e)).y ∨
        (get_max_min_projections s2 (unit_axis_of e)).x ≤
          (get_max_min_projections s1 (unit_axis_of e)).y)) :
    sat_axis_loop s1 s2 l m a = none := by
  induction l generalizing m a with
  | nil => simp at h
  | cons e rest ih =>
    obtain ⟨e', he', hnd', hsep'⟩ := h
    rcases List.mem_cons.mp he' with rfl | hmem
    · exact sat_axis_loop_cons_sep s1 s2 e' rest m a hnd' hsep'
    · by_cases hdeg : vec_get_length (axis_of e) < 1e-9
      · rw [sat_axis_loop_cons_deg s1 s2 e rest m a hdeg]
        exact ih m a ⟨e', hmem, hnd', hsep'⟩
      · by_cases hsep : (get_max_min_projections s1 (unit_axis_of e)).x ≤
            (get_max_min_projections s2 (unit_axis_of e)).y ∨
          (get_max_min_projections s2 (unit_axis_of e)).x ≤
            (get_max_min_projections s1 (unit_axis_of e)).y
        · exact sat_axis_loop_cons_sep s1 s2 e rest m a hdeg hsep
        · rw [sat_axis_loop_cons_step s1 s2 e rest m a hdeg hsep]
          by_cases hlt : overlap_on s1 s2 (unit_axis_of e) < m
          · rw [if_pos hlt]
            exact ih _ _ ⟨e', hmem, hnd', hsep'⟩
          · rw [if_neg hlt]
            exact ih m a ⟨e', hmem, hnd', hsep'⟩

lemma sat_axis_loop_some_inv (s1 s2 : List vector_t) (l : List vector_t)
    (m : ℝ) (a : vector_t) (m' : ℝ) (a' : vector_t)
    (h : sat_axis_loop s1 s2 l m a = some (m', a')) :
    m' ≤ m ∧
    (∀ e ∈ l, edge_nondegenerate e →
      ((get_max_min_projections s2 (unit_axis_of e)).y <
          (get_max_min_projections s1 (unit_axis_of e)).x ∧
        (get_max_min_projections s1 (unit_axis_of e)).y <
          (get_max_min_projections s2 (unit_axis_of e)).x) ∧
      m' ≤ overlap_on s1 s2 (unit_axis_of e)) ∧
    ((m' = m ∧ a' = a) ∨
      ∃ e ∈ l, edge_nondegenerate e ∧ m' = overlap_on s1 s2 (unit_axis_of e) ∧
        a' = unit_axis_of e) := by
  induction l generalizing m a with
  | nil =>
    simp only [sat_axis_loop, Option.some.injEq, Prod.mk.injEq] at h
    obtain ⟨rfl, rfl⟩ := h
    exact ⟨le_refl _, by simp, Or.inl ⟨rfl, rfl⟩⟩
  | cons e rest ih =>
    by_cases hdeg : vec_get_length (axis_of e) < 1e-9
    · rw [sat_axis_loop_cons_deg s1 s2 e rest m a hdeg] at h
      obtain ⟨hm, hall, hdisj⟩ := ih m a h
      refine ⟨hm, ?_, ?_⟩
      · intro e' he' hnd'
        rcases List.mem_cons.mp he' with rfl | hmem
        · exact absurd hdeg hnd'
        · exact hall e' hmem hnd'
      · rcases hdisj with h1 | ⟨e', he', hrest⟩
        · exact Or.inl h1
        · exact Or.inr ⟨e', List.mem_cons_of_mem _ he', hrest⟩
    · by_cases hsep : (get_max_min_projections s1 (unit_axis_of e)).x ≤
          (get_max_min_projections s2 (unit_axis_of e)).y ∨
        (get_max_min_projections s2 (unit_axis_of e)).x ≤
          (get_max_min_projections s1 (unit_axis_of e)).y
      · rw [sat_axis_loop_cons_sep s1 s2 e rest m a hdeg hsep] at h
        exact absurd h (by simp)
      · push_neg at hsep
        obtain ⟨hstrict1, hstrict2⟩ := hsep
        have hsep' : ¬ ((get_max_min_projections s1 (unit_axis_of e)).x ≤
            (get_max_min_projections s2 (unit_axis_of e)).y ∨
          (get_max_min_projections s2 (unit_axis_of e)).x ≤
            (get_max_min_projections s1 (unit_axis_of e)).y) := by
          push_neg
          exact ⟨hstrict1, hstrict2⟩
        rw [sat_axis_loop_cons_step s1 s2 e rest m a hdeg hsep'] at h
        by_cases hlt : overlap_on s1 s2 (unit_axis_of e) < m
        · rw [if_pos hlt] at h
          obtain ⟨hm, hall, hdisj⟩ := ih _ _ h
          refine ⟨le_trans hm (le_of_lt hlt), ?_, ?_⟩
          · intro e' he' hnd'
            rcases List.mem_cons.mp he' with rfl | hmem
            · exact ⟨⟨hstrict1, hstrict2⟩, hm⟩
            · exact hall e' hmem hnd'
          · rcases hdisj with ⟨rfl, rfl⟩ | ⟨e', he', hnd', hov', hax'⟩
            · exact Or.inr ⟨e, List.mem_cons_self e rest, hdeg, rfl, rfl⟩
            · exact Or.inr ⟨e', List.mem_cons_of_mem _ he', hnd', hov', hax'⟩
        · rw [if_neg hlt] at h
          obtain ⟨hm, hall, hdisj⟩ := ih m a h
          refine ⟨hm, ?_, ?_⟩
          · intro e' he' hnd'
            rcases List.mem_cons.mp he' with rfl | hmem
            · exact ⟨⟨hstrict1, hstrict2⟩, le_trans hm (not_lt.mp hlt)⟩
            · exact hall e' hmem hnd'
          · rcases hdisj with h1 | ⟨e', he', hrest⟩
            · exact Or.inl h1
            · exact Or.inr ⟨e', List.mem_cons_of_mem _ he', hrest⟩

lemma compare_collision_of_some (s1 s2 : List vector_t) (m' : ℝ) (a' : vector_t)
    (hs : sat_axis_loop s1 s2 (get_edges s1) DBL_MAX VEC_ZERO = some (m', a')) :
    compare_collision s1 s2 =
      (⟨true, if vec_dot a' (vec_subtract (centroid_from_vertices s2)
          (centroid_from_vertices s1)) < 0 then vec_negate a' else a'⟩, m') := by
  unfold compare_collision
  rw [hs]

lemma compare_collision_of_none (s1 s2 : List vector_t)
    (hs : sat_axis_loop s1 s2 (get_edges s1) DBL_MAX VEC_ZERO = none) :
    compare_collision s1 s2 = (⟨false, VEC_ZERO⟩, DBL_MAX) := by
  unfold compare_collision
  rw [hs]

lemma compare_collision_collided_some (s1 s2 : List vector_t)
    (h : (compare_collision s1 s2).1.collided = true) :
    ∃ m' a', sat_axis_loop s1 s2 (get_edges s1) DBL_MAX VEC_ZERO = some (m', a') := by
  cases hs : sat_axis_loop s1 s2 (get_edges s1) DBL_MAX VEC_ZERO with
  | none => rw [compare_collision_of_none s1 s2 hs] at h; simp at h
  | some p =>
    obtain ⟨m', a'⟩ := p
    exact ⟨m', a', rfl⟩

lemma compare_collision_oriented (s1 s2 : List vector_t)
    (h : (compare_collision s1 s2).1.collided = true) :
    oriented_min_axis s1 s2 (compare_collision s1 s2).1.axis (compare_collision s1 s2).2 := by
  obtain ⟨m', a', hs⟩ := compare_collision_collided_some s1 s2 h
  obtain ⟨hm, hall, hdisj⟩ := sat_axis_loop_some_inv s1 s2 (get_edges s1) DBL_MAX VEC_ZERO m' a' hs
  rw [compare_collision_of_some s1 s2 m' a' hs]
  refine ⟨?_, ?_, ?_⟩
  · by_cases hneg : vec_dot a' (vec_subtract (centroid_from_vertices s2)
        (centroid_from_vertices s1)) < 0
    · rw [if_pos hneg, vec_dot_negate_left]
      linarith
    · rw [if_neg hneg]
      exact not_lt.mp hneg
  · exact hall
  · rcases hdisj with ⟨rfl, rfl⟩ | ⟨e, he, hnd, hov, hax⟩
    · refine Or.inl ⟨rfl, ?_⟩
      rw [vec_dot_zero_left]
      simp
    · refine Or.inr ⟨e, he, hnd, hov, ?_⟩
      subst hax
      by_cases hneg : vec_dot (unit_axis_of e) (vec_subtract (centroid_from_vertices s2)
          (centroid_from_vertices s1)) < 0
      · rw [if_pos hneg]
        exact Or.inr rfl
      · rw [if_neg hneg]
        exact Or.inl rfl

lemma find_collision_collided_eq (s1 s2 : List vector_t) :
    (find_collision s1 s2).collided =
      ((compare_collision s1 s2).1.collided && (compare_collision s2 s1).1.collided) := by
  unfold find_collision
  cases h1 : (compare_collision s1 s2).1.collided <;>
    cases h2 : (compare_collision s2 s1).1.collided <;>
      by_cases hov : (compare_collision s1 s2).2 < (compare_collision s2 s1).2 <;>
        simp [h1, h2, hov]

lemma find_collision_eq_of_lt (s1 s2 : List vector_t)
    (h1 : (compare_collision s1 s2).1.collided = true)
    (h2 : (compare_collision s2 s1).1.collided = true)
    (hlt : (compare_collision s1 s2).2 < (compare_collision s2 s1).2) :
    find_collision s1 s2 = (compare_collision s1 s2).1 := by
  unfold find_collision
  simp [h1, h2, hlt]

lemma find_collision_eq_of_ge (s1 s2 : List vector_t)
    (h1 : (compare_collision s1 s2).1.collided = true)
    (h2 : (compare_collision s2 s1).1.collided = true)
    (hge : ¬ (compare_collision s1 s2).2 < (compare_collision s2 s1).2) :
    find_collision s1 s2 = (compare_collision s2 s1).1 := by
  unfold find_collision
  simp [h1, h2, hge]

lemma find_collision_eq_left_of_not (s1 s2 : List vector_t)
    (h : (compare_collision s1 s2).1.collided = false) :
    find_collision s1 s2 = (compare_collision s1 s2).1 := by
  unfold find_collision
  simp [h]

lemma compare_collision_not_collided_of_sep (s1 s2 : List vector_t)
    (h : ∃ e ∈ get_edges s1, edge_nondegenerate e ∧
      ((get_max_min_projections s1 (unit_axis_of e)).x ≤
          (get_max_min_projections s2 (unit_axis_of e)).y ∨
        (get_max_min_projections s2 (unit_axis_of e)).x ≤
          (get_max_min_projections s1 (unit_axis_of e)).y)) :
    (compare_collision s1 s2).1.collided = false := by
  rw [compare_collision_of_none s1 s2
    (sat_axis_loop_none_of_sep s1 s2 (get_edges s1) DBL_MAX VEC_ZERO h)]

lemma len_m3_0 : vec_get_length (axis_of ⟨-3, 0⟩) = 3 :=
  vec_get_length_eval _ 3 (by norm_num) (by norm_num [axis_of])

lemma ue_m3_0 : unit_axis_of ⟨-3, 0⟩ = ⟨0, -1⟩ := by
  unfold unit_axis_of; rw [len_m3_0]; norm_num [axis_of, vec_multiply]

lemma len_3_m4 : vec_get_length (axis_of ⟨3, -4⟩) = 5 :=
  vec_get_length_eval _ 5 (by norm_num) (by norm_num [axis_of])

lemma ue_3_m4 : unit_axis_of ⟨3, -4⟩ = ⟨4/5, 3/5⟩ := by
  unfold unit_axis_of; rw [len_3_m4]; norm_num [axis_of, vec_multiply]

lemma len_0_4 : vec_get_length (axis_of ⟨0, 4⟩) = 4 :=
  vec_get_length_eval _ 4 (by norm_num) (by norm_num [axis_of])

lemma ue_0_4 : unit_axis_of ⟨0, 4⟩ = ⟨-1, 0⟩ := by
  unfold unit_axis_of; rw [len_0_4]; norm_num [axis_of, vec_multiply]

lemma len_m2_0 : vec_get_length (axis_of ⟨-2, 0⟩) = 2 :=
  vec_get_length_eval _ 2 (by norm_num) (by norm_num [axis_of])

lemma ue_m2_0 : unit_axis_of ⟨-2, 0⟩ = ⟨0, -1⟩ := by
  unfold unit_axis_of; rw [len_m2_0]; norm_num [axis_of, vec_multiply]

lemma len_0_m2 : vec_get_length (axis_of ⟨0, -2⟩) = 2 :=
  vec_get_length_eval _ 2 (by norm_num) (by norm_num [axis_of])

lemma ue_0_m2 : unit_axis_of ⟨0, -2⟩ = ⟨1, 0⟩ := by
  unfold unit_axis_of; rw [len_0_m2]; norm_num [axis_of, vec_multiply]

lemma len_2_0 : vec_get_length (axis_of ⟨2, 0⟩) = 2 :=
  vec_get_length_eval _ 2 (by norm_num) (by norm_num [axis_of])

lemma ue_2_0 : unit_axis_of ⟨2, 0⟩ = ⟨0, 1⟩ := by
  unfold unit_axis_of; rw [len_2_0]; norm_num [axis_of, vec_multiply]

lemma len_0_2 : vec_get_length (axis_of ⟨0, 2⟩) = 2 :=
  vec_get_length_eval _ 2 (by norm_num) (by norm_num [axis_of])

lemma ue_0_2 : unit_axis_of ⟨0, 2⟩ = ⟨-1, 0⟩ := by
  unfold unit_axis_of; rw [len_0_2]; norm_num [axis_of, vec_multiply]

lemma len_m1_0 : vec_get_length (axis_of ⟨-1, 0⟩) = 1 :=
  vec_get_length_eval _ 1 (by norm_num) (by norm_num [axis_of])

lemma ue_m1_0 : unit_axis_of ⟨-1, 0⟩ = ⟨0, -1⟩ := by
  unfold unit_axis_of; rw [len_m1_0]; norm_num [axis_of, vec_multiply]

lemma len_0_m1 : vec_get_length (axis_of ⟨0, -1⟩) = 1 :=
  vec_get_length_eval _ 1 (by norm_num) (by norm_num [axis_of])

lemma ue_0_m1 : unit_axis_of ⟨0, -1⟩ = ⟨1, 0⟩ := by
  unfold unit_axis_of; rw [len_0_m1]; norm_num [axis_of, vec_multiply]

lemma len_1_0 : vec_get_length (axis_of ⟨1, 0⟩) = 1 :=
  vec_get_length_eval _ 1 (by norm_num) (by norm_num [axis_of])

lemma ue_1_0 : unit_axis_of ⟨1, 0⟩ = ⟨0, 1⟩ := by
  unfold unit_axis_of; rw [len_1_0]; norm_num [axis_of, vec_multiply]

lemma len_0_1 : vec_get_length (axis_of ⟨0, 1⟩) = 1 :=
  vec_get_length_eval _ 1 (by norm_num) (by norm_num [axis_of])

lemma ue_0_1 : unit_axis_of ⟨0, 1⟩ = ⟨-1, 0⟩ := by
  unfold unit_axis_of; rw [len_0_1]; norm_num [axis_of, vec_multiply]

lemma proj_T_down : get_max_min_projections tri_T ⟨0, -1⟩ = ⟨0, -4⟩ := by
  norm_num [get_max_min_projections, tri_T, vec_dot, DBL_MAX]

lemma proj_T_hyp : get_max_min_projections tri_T ⟨4/5, 3/5⟩ = ⟨12/5, 0⟩ := by
  norm_num [get_max_min_projections, tri_T, vec_dot, DBL_MAX]

lemma proj_T_left : get_max_min_projections tri_T ⟨-1, 0⟩ = ⟨0, -3⟩ := by
  norm_num [get_max_min_projections, tri_T, vec_dot, DBL_MAX]

lemma proj_T_right : get_max_min_projections tri_T ⟨1, 0⟩ = ⟨3, 0⟩ := by
  norm_num [get_max_min_projections, tri_T, vec_dot, DBL_MAX]

lemma proj_T_up : get_max_min_projections tri_T ⟨0, 1⟩ = ⟨4, 0⟩ := by
  norm_num [get_max_min_projections, tri_T, vec_dot, DBL_MAX]

lemma proj_S_down : get_max_min_projections sq_S ⟨0, -1⟩ = ⟨-1, -3⟩ := by
  norm_num [get_max_min_projections, sq_S, vec_dot, DBL_MAX]

lemma proj_S_hyp : get_max_min_projections sq_S ⟨4/5, 3/5⟩ = ⟨21/5, 7/5⟩ := by
  norm_num [get_max_min_projections, sq_S, vec_dot, DBL_MAX]

lemma proj_S_left : get_max_min_projections sq_S ⟨-1, 0⟩ = ⟨-1, -3⟩ := by
  norm_num [get_max_min_projections, sq_S, vec_dot, DBL_MAX]

lemma proj_S_right : get_max_min_projections sq_S ⟨1, 0⟩ = ⟨3, 1⟩ := by
  norm_num [get_max_min_projections, sq_S, vec_dot, DBL_MAX]

lemma proj_S_up : get_max_min_projections sq_S ⟨0, 1⟩ = ⟨3, 1⟩ := by
  norm_num [get_max_min_projections, sq_S, vec_dot, DBL_MAX]

lemma proj_O_down : get_max_min_projections sq_origin ⟨0, -1⟩ = ⟨1/2, -(1/2)⟩ := by
  norm_num [get_max_min_projections, sq_origin, vec_dot, DBL_MAX]

lemma proj_O_right : get_max_min_projections sq_origin ⟨1, 0⟩ = ⟨1/2, -(1/2)⟩ := by
  norm_num [get_max_min_projections, sq_origin, vec_dot, DBL_MAX]

lemma proj_O_up : get_max_min_projections sq_origin ⟨0, 1⟩ = ⟨1/2, -(1/2)⟩ := by
  norm_num [get_max_min_projections, sq_origin, vec_dot, DBL_MAX]

lemma proj_O_left : get_max_min_projections sq_origin ⟨-1, 0⟩ = ⟨1/2, -(1/2)⟩ := by
  norm_num [get_max_min_projections, sq_origin, vec_dot, DBL_MAX]

lemma proj_H_down : get_max_min_projections sq_half ⟨0, -1⟩ = ⟨1/2, -(1/2)⟩ := by
  norm_num [get_max_min_projections, sq_half, vec_dot, DBL_MAX]

lemma proj_H_right : get_max_min_projections sq_half ⟨1, 0⟩ = ⟨1, 0⟩ := by
  norm_num [get_max_min_projections, sq_half, vec_dot, DBL_MAX]

lemma proj_H_up : get_max_min_projections sq_half ⟨0, 1⟩ = ⟨1/2, -(1/2)⟩ := by
  norm_num [get_max_min_projections, sq_half, vec_dot, DBL_MAX]

lemma proj_H_left : get_max_min_projections sq_half ⟨-1, 0⟩ = ⟨0, -1⟩ := by
  norm_num [get_max_min_projections, sq_half, vec_dot, DBL_MAX]

lemma proj_3_down : get_max_min_projections sq_three ⟨0, -1⟩ = ⟨1/2, -(1/2)⟩ := by
  norm_num [get_max_min_projections, sq_three, vec_dot, DBL_MAX]

lemma proj_3_right : get_max_min_projections sq_three ⟨1, 0⟩ = ⟨7/2, 5/2⟩ := by
  norm_num [get_max_min_projections, sq_three, vec_dot, DBL_MAX]

lemma proj_touch_right : get_max_min_projections sq_touch ⟨1, 0⟩ = ⟨3/2, 1/2⟩ := by
  norm_num [get_max_min_projections, sq_touch, vec_dot, DBL_MAX]

lemma edges_tri_T : get_edges tri_T = [⟨-3, 0⟩, ⟨3, -4⟩, ⟨0, 4⟩] := by
  norm_num [get_edges, tri_T, vec_subtract]

lemma edges_sq_S : get_edges sq_S = [⟨-2, 0⟩, ⟨0, -2⟩, ⟨2, 0⟩, ⟨0, 2⟩] := by
  norm_num [get_edges, sq_S, vec_subtract]

lemma edges_sq_origin : get_edges sq_origin = [⟨-1, 0⟩, ⟨0, -1⟩, ⟨1, 0⟩, ⟨0, 1⟩] := by
  norm_num [get_edges, sq_origin, vec_subtract]

lemma edges_sq_half : get_edges sq_half = [⟨-1, 0⟩, ⟨0, -1⟩, ⟨1, 0⟩, ⟨0, 1⟩] := by
  norm_num [get_edges, sq_half, vec_subtract]

lemma cen_T : centroid_from_vertices tri_T = ⟨1, 4/3⟩ := by
  norm_num [centroid_from_vertices, tri_T, vec_add, vec_multiply, VEC_ZERO]

lemma cen_S : centroid_from_vertices sq_S = ⟨2, 2⟩ := by
  norm_num [centroid_from_vertices, sq_S, vec_add, vec_multiply, VEC_ZERO]

lemma cen_O : centroid_from_vertices sq_origin = ⟨0, 0⟩ := by
  norm_num [centroid_from_vertices, sq_origin, vec_add, vec_multiply, VEC_ZERO]

lemma cen_H : centroid_from_vertices sq_half = ⟨1/2, 0⟩ := by
  norm_num [centroid_from_vertices, sq_half, vec_add, vec_multiply, VEC_ZERO]

lemma shoelace_T : spec_shoelace_centroid tri_T = ⟨1, 4/3⟩ := by
  norm_num [spec_shoelace_centroid, tri_T]

lemma shoelace_S : spec_shoelace_centroid sq_S = ⟨2, 2⟩ := by
  norm_num [spec_shoelace_centroid, sq_S]

lemma sat_T_S : sat_axis_loop tri_T sq_S (get_edges tri_T) DBL_MAX VEC_ZERO =
    some (1, ⟨4/5, 3/5⟩) := by
  rw [edges_tri_T]
  rw [sat_axis_loop_cons_step tri_T sq_S _ _ _ _
      (by rw [len_m3_0]; norm_num)
      (by rw [ue_m3_0, proj_T_down, proj_S_down]; norm_num)]
  rw [show overlap_on tri_T sq_S (unit_axis_of ⟨-3, 0⟩) = 2 by
    rw [ue_m3_0]; unfold overlap_on; rw [proj_T_down, proj_S_down]; norm_num]
  rw [if_pos (by norm_num [DBL_MAX] : (2:ℝ) < DBL_MAX)]
  rw [sat_axis_loop_cons_step tri_T sq_S _ _ _ _
      (by rw [len_3_m4]; norm_num)
      (by rw [ue_3_m4, proj_T_hyp, proj_S_hyp]; norm_num)]
  rw [show overlap_on tri_T sq_S (unit_axis_of ⟨3, -4⟩) = 1 by
    rw [ue_3_m4]; unfold overlap_on; rw [proj_T_hyp, proj_S_hyp]; norm_num]
  rw [if_pos (by norm_num : (1:ℝ) < 2)]
  rw [sat_axis_loop_cons_step tri_T sq_S _ _ _ _
      (by rw [len_0_4]; norm_num)
      (by rw [ue_0_4, proj_T_left, proj_S_left]; norm_num)]
  rw [show overlap_on tri_T sq_S (unit_axis_of ⟨0, 4⟩) = 2 by
    rw [ue_0_4]; unfold overlap_on; rw [proj_T_left, proj_S_left]; norm_num]
  rw [if_neg (by norm_num : ¬ (2:ℝ) < 1)]
  rw [ue_3_m4, sat_axis_loop]

lemma sat_S_T : sat_axis_loop sq_S tri_T (get_edges sq_S) DBL_MAX VEC_ZERO =
    some (2, ⟨0, -1⟩) := by
  rw [edges_sq_S]
  rw [sat_axis_loop_cons_step sq_S tri_T _ _ _ _
      (by rw [len_m2_0]; norm_num)
      (by rw [ue_m2_0, proj_S_down, proj_T_down]; norm_num)]
  rw [show overlap_on sq_S tri_T (unit_axis_of ⟨-2, 0⟩) = 2 by
    rw [ue_m2_0]; unfold overlap_on; rw [proj_S_down, proj_T_down]; norm_num]
  rw [if_pos (by norm_num [DBL_MAX] : (2:ℝ) < DBL_MAX)]
  rw [sat_axis_loop_cons_step sq_S tri_T _ _ _ _
      (by rw [len_0_m2]; norm_num)
      (by rw [ue_0_m2, proj_S_right, proj_T_right]; norm_num)]
  rw [show overlap_on sq_S tri_T (unit_axis_of ⟨0, -2⟩) = 2 by
    rw [ue_0_m2]; unfold overlap_on; rw [proj_S_right, proj_T_right]; norm_num]
  rw [if_neg (by norm_num : ¬ (2:ℝ) < 2)]
  rw [sat_axis_loop_cons_step sq_S tri_T _ _ _ _
      (by rw [len_2_0]; norm_num)
      (by rw [ue_2_0, proj_S_up, proj_T_up]; norm_num)]
  rw [show overlap_on sq_S tri_T (unit_axis_of ⟨2, 0⟩) = 2 by
    rw [ue_2_0]; unfold overlap_on; rw [proj_S_up, proj_T_up]; norm_num]
  rw [if_neg (by norm_num : ¬ (2:ℝ) < 2)]
  rw [sat_axis_loop_cons_step sq_S tri_T _ _ _ _
      (by rw [len_0_2]; norm_num)
      (by rw [ue_0_2, proj_S_left, proj_T_left]; norm_num)]
  rw [show overlap_on sq_S tri_T (unit_axis_of ⟨0, 2⟩) = 2 by
    rw [ue_0_2]; unfold overlap_on; rw [proj_S_left, proj_T_left]; norm_num]
  rw [if_neg (by norm_num : ¬ (2:ℝ) < 2)]
  rw [ue_m2_0, sat_axis_loop]

lemma sat_O_H : sat_axis_loop sq_origin sq_half (get_edges sq_origin) DBL_MAX VEC_ZERO =
    some (1/2, ⟨1, 0⟩) := by
  rw [edges_sq_origin]
  rw [sat_axis_loop_cons_step sq_origin sq_half _ _ _ _
      (by rw [len_m1_0]; norm_num)
      (by rw [ue_m1_0, proj_O_down, proj_H_down]; norm_num)]
  rw [show overlap_on sq_origin sq_half (unit_axis_of ⟨-1, 0⟩) = 1 by
    rw [ue_m1_0]; unfold overlap_on; rw [proj_O_down, proj_H_down]; norm_num]
  rw [if_pos (by norm_num [DBL_MAX] : (1:ℝ) < DBL_MAX)]
  rw [sat_axis_loop_cons_step sq_origin sq_half _ _ _ _
      (by rw [len_0_m1]; norm_num)
      (by rw [ue_0_m1, proj_O_right, proj_H_right]; norm_num)]
  rw [show overlap_on sq_origin sq_half (unit_axis_of ⟨0, -1⟩) = 1/2 by
    rw [ue_0_m1]; unfold overlap_on; rw [proj_O_right, proj_H_right]; norm_num]
  rw [if_pos (by norm_num : (1:ℝ)/2 < 1)]
  rw [sat_axis_loop_cons_step sq_origin sq_half _ _ _ _
      (by rw [len_1_0]; norm_num)
      (by rw [ue_1_0, proj_O_up, proj_H_up]; norm_num)]
  rw [show overlap_on sq_origin sq_half (unit_axis_of ⟨1, 0⟩) = 1 by
    rw [ue_1_0]; unfold overlap_on; rw [proj_O_up, proj_H_up]; norm_num]
  rw [if_neg (by norm_num : ¬ (1:ℝ) < 1/2)]
  rw [sat_axis_loop_cons_step sq_origin sq_half _ _ _ _
      (by rw [len_0_1]; norm_num)
      (by rw [ue_0_1, proj_O_left, proj_H_left]; norm_num)]
  rw [show overlap_on sq_origin sq_half (unit_axis_of ⟨0, 1⟩) = 1/2 by
    rw [ue_0_1]; unfold overlap_on; rw [proj_O_left, proj_H_left]; norm_num]
  rw [if_neg (by norm_num : ¬ (1:ℝ)/2 < 1/2)]
  rw [ue_0_m1, sat_axis_loop]

lemma sat_H_O : sat_axis_loop sq_half sq_origin (get_edges sq_half) DBL_MAX VEC_ZERO =
    some (1/2, ⟨1, 0⟩) := by
  rw [edges_sq_half]
  rw [sat_axis_loop_cons_step sq_half sq_origin _ _ _ _
      (by rw [len_m1_0]; norm_num)
      (by rw [ue_m1_0, proj_H_down, proj_O_down]; norm_num)]
  rw [show overlap_on sq_half sq_origin (unit_axis_of ⟨-1, 0⟩) = 1 by
    rw [ue_m1_0]; unfold overlap_on; rw [proj_H_down, proj_O_down]; norm_num]
  rw [if_pos (by norm_num [DBL_MAX] : (1:ℝ) < DBL_MAX)]
  rw [sat_axis_loop_cons_step sq_half sq_origin _ _ _ _
      (by rw [len_0_m1]; norm_num)
      (by rw [ue_0_m1, proj_H_right, proj_O_right]; norm_num)]
  rw [show overlap_on sq_half sq_origin (unit_axis_of ⟨0, -1⟩) = 1/2 by
    rw [ue_0_m1]; unfold overlap_on; rw [proj_H_right, proj_O_right]; norm_num]
  rw [if_pos (by norm_num : (1:ℝ)/2 < 1)]
  rw [sat_axis_loop_cons_step sq_half sq_origin _ _ _ _
      (by rw [len_1_0]; norm_num)
      (by rw [ue_1_0, proj_H_up, proj_O_up]; norm_num)]
  rw [show overlap_on sq_half sq_origin (unit_axis_of ⟨1, 0⟩) = 1 by
    rw [ue_1_0]; unfold overlap_on; rw [proj_H_up, proj_O_up]; norm_num]
  rw [if_neg (by norm_num : ¬ (1:ℝ) < 1/2)]
  rw [sat_axis_loop_cons_step sq_half sq_origin _ _ _ _
      (by rw [len_0_1]; norm_num)
      (by rw [ue_0_1, proj_H_left, proj_O_left]; norm_num)]
  rw [show overlap_on sq_half sq_origin (unit_axis_of ⟨0, 1⟩) = 1/2 by
    rw [ue_0_1]; unfold overlap_on; rw [proj_H_left, proj_O_left]; norm_num]
  rw [if_neg (by norm_num : ¬ (1:ℝ)/2 < 1/2)]
  rw [ue_0_m1, sat_axis_loop]

lemma sat_O_3 : sat_axis_loop sq_origin sq_three (get_edges sq_origin) DBL_MAX VEC_ZERO =
    none := by
  rw [edges_sq_origin]
  rw [sat_axis_loop_cons_step sq_origin sq_three _ _ _ _
      (by rw [len_m1_0]; norm_num)
      (by rw [ue_m1_0, proj_O_down, proj_3_down]; norm_num)]
  rw [show overlap_on sq_origin sq_three (unit_axis_of ⟨-1, 0⟩) = 1 by
    rw [ue_m1_0]; unfold overlap_on; rw [proj_O_down, proj_3_down]; norm_num]
  rw [if_pos (by norm_num [DBL_MAX] : (1:ℝ) < DBL_MAX)]
  exact sat_axis_loop_cons_sep sq_origin sq_three _ _ _ _
    (by rw [len_0_m1]; norm_num)
    (by rw [ue_0_m1, proj_O_right, proj_3_right]; norm_num)

lemma cmp_T_S : compare_collision tri_T sq_S = (⟨true, ⟨4/5, 3/5⟩⟩, 1) := by
  rw [compare_collision_of_some tri_T sq_S 1 ⟨4/5, 3/5⟩ sat_T_S, cen_T, cen_S]
  norm_num [vec_dot, vec_subtract]

lemma cmp_S_T : compare_collision sq_S tri_T = (⟨true, ⟨0, -1⟩⟩, 2) := by
  rw [compare_collision_of_some sq_S tri_T 2 ⟨0, -1⟩ sat_S_T, cen_S, cen_T]
  norm_num [vec_dot, vec_subtract]

lemma cmp_O_H : compare_collision sq_origin sq_half = (⟨true, ⟨1, 0⟩⟩, 1/2) := by
  rw [compare_collision_of_some sq_origin sq_half (1/2) ⟨1, 0⟩ sat_O_H, cen_O, cen_H]
  norm_num [vec_dot, vec_subtract]

lemma cmp_H_O : compare_collision sq_half sq_origin = (⟨true, ⟨-1, 0⟩⟩, 1/2) := by
  rw [compare_collision_of_some sq_half sq_origin (1/2) ⟨1, 0⟩ sat_H_O, cen_H, cen_O]
  norm_num [vec_dot, vec_subtract, vec_negate]

lemma cmp_O_3 : compare_collision sq_origin sq_three = (⟨false, VEC_ZERO⟩, DBL_MAX) :=
  compare_collision_of_none sq_origin sq_three sat_O_3

lemma find_T_S : find_collision tri_T sq_S = ⟨true, ⟨4/5, 3/5⟩⟩ := by
  rw [find_collision_eq_of_lt tri_T sq_S (by rw [cmp_T_S]) (by rw [cmp_S_T])
      (by rw [cmp_T_S, cmp_S_T]; norm_num), cmp_T_S]

lemma find_S_T : find_collision sq_S tri_T = ⟨true, ⟨4/5, 3/5⟩⟩ := by
  rw [find_collision_eq_of_ge sq_S tri_T (by rw [cmp_S_T]) (by rw [cmp_T_S])
      (by rw [cmp_T_S, cmp_S_T]; norm_num), cmp_T_S]

lemma find_O_H : find_collision sq_origin sq_half = ⟨true, ⟨-1, 0⟩⟩ := by
  rw [find_collision_eq_of_ge sq_origin sq_half (by rw [cmp_O_H]) (by rw [cmp_H_O])
      (by rw [cmp_O_H, cmp_H_O]; norm_num), cmp_H_O]

lemma find_O_3 : find_collision sq_origin sq_three = ⟨false, VEC_ZERO⟩ := by
  rw [find_collision_eq_left_of_not sq_origin sq_three (by rw [cmp_O_3]), cmp_O_3]

/-- **C1 (counterexample).** For the 3-4-5 triangle `tri_T` and the square
`sq_S`, the two call orders of `find_collision` agree on `collided` but
return the very same axis `(4/5, 3/5)` — not antiparallel axes: because the
triangle-edge pass has the strictly smaller overlap, both call orders return
that same pass's result, and `find_collision` never negates the second
pass's axis. -/
theorem find_collision_not_antiparallel_cex :
    (find_collision tri_T sq_S).collided = (find_collision sq_S tri_T).collided ∧
    (find_collision tri_T sq_S).collided = true ∧
    (find_collision tri_T sq_S).axis = (find_collision sq_S tri_T).axis ∧
    ¬ (find_collision tri_T sq_S).axis = vec_negate (find_collision sq_S tri_T).axis := by
  rw [find_T_S, find_S_T]
  refine ⟨rfl, rfl, rfl, ?_⟩
  norm_num [vec_negate, vector_t.mk.injEq]

/-- **C1 (amended).** `find_collision(A,B).collided` always equals
`find_collision(B,A).collided`; but when both collide the returned axes are
not antiparallel in general: whenever the two passes record different
minimum overlaps, the two call orders return the *identical* result
(same axis), since both return the pass with the smaller overlap and the
second pass's axis is never re-negated. -/
theorem find_collision_collided_symm_same_axis (s1 s2 : List vector_t) :
    (find_collision s1 s2).collided = (find_collision s2 s1).collided ∧
    ((compare_collision s1 s2).1.collided = true →
      (compare_collision s2 s1).1.collided = true →
      (compare_collision s1 s2).2 ≠ (compare_collision s2 s1).2 →
      find_collision s1 s2 = find_collision s2 s1) := by
  constructor
  · rw [find_collision_collided_eq, find_collision_collided_eq, Bool.and_comm]
  · intro h1 h2 hne
    rcases lt_or_gt_of_ne hne with hlt | hgt
    · rw [find_collision_eq_of_lt s1 s2 h1 h2 hlt,
        find_collision_eq_of_ge s2 s1 h2 h1 (not_lt.mpr (le_of_lt hlt))]
    · rw [find_collision_eq_of_ge s1 s2 h1 h2 (not_lt.mpr (le_of_lt hgt)),
        find_collision_eq_of_lt s2 s1 h2 h1 hgt]

/-- Witness for the amended C1 at the triangle/square pair, where the two
pass overlaps (1 and 2) differ. -/
theorem find_collision_collided_symm_same_axis_witness :
    ((compare_collision tri_T sq_S).1.collided = true ∧
      (compare_collision sq_S tri_T).1.collided = true ∧
      (compare_collision tri_T sq_S).2 ≠ (compare_collision sq_S tri_T).2) ∧
    ((find_collision tri_T sq_S).collided = (find_collision sq_S tri_T).collided ∧
      find_collision tri_T sq_S = find_collision sq_S tri_T) := by
  have h1 : (compare_collision tri_T sq_S).1.collided = true := by rw [cmp_T_S]
  have h2 : (compare_collision sq_S tri_T).1.collided = true := by rw [cmp_S_T]
  have hne : (compare_collision tri_T sq_S).2 ≠ (compare_collision sq_S tri_T).2 := by
    rw [cmp_T_S, cmp_S_T]; norm_num
  exact ⟨⟨h1, h2, hne⟩, (find_collision_collided_symm_same_axis tri_T sq_S).1,
    (find_collision_collided_symm_same_axis tri_T sq_S).2 h1 h2 hne⟩

/-- **C2 (counterexample).** With `sq_S` as the first body and `tri_T` as the
second, the two shapes collide but the returned axis has strictly negative
dot product with the vector from the first body's (shoelace) centroid to the
second body's: it does not point from the first body toward the second,
because with the second pass winning `find_collision` returns the second
pass's axis — oriented from the second shape toward the first — unnegated. -/
theorem find_collision_axis_direction_cex :
    (find_collision sq_S tri_T).collided = true ∧
    vec_dot (find_collision sq_S tri_T).axis
      (vec_subtract (spec_shoelace_centroid tri_T) (spec_shoelace_centroid sq_S)) < 0 := by
  rw [find_S_T, shoelace_T, shoelace_S]
  exact ⟨rfl, by norm_num [vec_dot, vec_subtract]⟩

/-- **C2 (amended).** Whenever `find_collision` reports a collision, the
returned axis is the winning pass's minimum-overlap axis — the first pass
(first shape's edge normals) when its overlap is strictly smaller, the
second pass otherwise — re-oriented (negated if necessary) so that it points
from the winning pass's *first* shape toward its *second* shape, where the
reference points are the plain vertex-average centroids computed by
`centroid_from_vertices` (not area-weighted shoelace centroids). In
particular, when the second pass wins or ties, the axis points from the
second body toward the first. -/
theorem find_collision_returns_oriented_min_axis (s1 s2 : List vector_t)
    (h : (find_collision s1 s2).collided = true) :
    ((compare_collision s1 s2).2 < (compare_collision s2 s1).2 ∧
      find_collision s1 s2 = (compare_collision s1 s2).1 ∧
      oriented_min_axis s1 s2 (find_collision s1 s2).axis (compare_collision s1 s2).2) ∨
    (¬ (compare_collision s1 s2).2 < (compare_collision s2 s1).2 ∧
      find_collision s1 s2 = (compare_collision s2 s1).1 ∧
      oriented_min_axis s2 s1 (find_collision s1 s2).axis (compare_collision s2 s1).2) := by
  have hb : ((compare_collision s1 s2).1.collided &&
      (compare_collision s2 s1).1.collided) = true := by
    rw [← find_collision_collided_eq, h]
  simp only [Bool.and_eq_true] at hb
  obtain ⟨h1, h2⟩ := hb
  by_cases hlt : (compare_collision s1 s2).2 < (compare_collision s2 s1).2
  · refine Or.inl ⟨hlt, find_collision_eq_of_lt s1 s2 h1 h2 hlt, ?_⟩
    rw [find_collision_eq_of_lt s1 s2 h1 h2 hlt]
    exact compare_collision_oriented s1 s2 h1
  · refine Or.inr ⟨hlt, find_collision_eq_of_ge s1 s2 h1 h2 hlt, ?_⟩
    rw [find_collision_eq_of_ge s1 s2 h1 h2 hlt]
    exact compare_collision_oriented s2 s1 h2

/-- Witness for the amended C2 at the triangle/square pair. -/
theorem find_collision_returns_oriented_min_axis_witness :
    (find_collision tri_T sq_S).collided = true ∧
    (((compare_collision tri_T sq_S).2 < (compare_collision sq_S tri_T).2 ∧
      find_collision tri_T sq_S = (compare_collision tri_T sq_S).1 ∧
      oriented_min_axis tri_T sq_S (find_collision tri_T sq_S).axis
        (compare_collision tri_T sq_S).2) ∨
    (¬ (compare_collision tri_T sq_S).2 < (compare_collision sq_S tri_T).2 ∧
      find_collision tri_T sq_S = (compare_collision sq_S tri_T).1 ∧
      oriented_min_axis sq_S tri_T (find_collision tri_T sq_S).axis
        (compare_collision sq_S tri_T).2)) :=
  ⟨by rw [find_T_S],
    find_collision_returns_oriented_min_axis tri_T sq_S (by rw [find_T_S])⟩

/-- **C3.** When both passes of the separating-axis test report a collision,
`find_collision` reports a collision and returns the result of whichever
pass recorded the strictly smaller minimum overlap. -/
theorem find_collision_keeps_smaller_pass (s1 s2 : List vector_t)
    (h1 : (compare_collision s1 s2).1.collided = true)
    (h2 : (compare_collision s2 s1).1.collided = true) :
    (find_collision s1 s2).collided = true ∧
    ((compare_collision s1 s2).2 < (compare_collision s2 s1).2 →
      find_collision s1 s2 = (compare_collision s1 s2).1) ∧
    ((compare_collision s2 s1).2 < (compare_collision s1 s2).2 →
      find_collision s1 s2 = (compare_collision s2 s1).1) := by
  refine ⟨?_, fun hlt => find_collision_eq_of_lt s1 s2 h1 h2 hlt,
    fun hlt => find_collision_eq_of_ge s1 s2 h1 h2 (not_lt.mpr (le_of_lt hlt))⟩
  rw [find_collision_collided_eq, h1, h2]
  rfl

/-- Witness for C3 at the triangle/square pair (overlaps 1 and 2). -/
theorem find_collision_keeps_smaller_pass_witness :
    ((compare_collision tri_T sq_S).1.collided = true ∧
      (compare_collision sq_S tri_T).1.collided = true) ∧
    ((find_collision tri_T sq_S).collided = true ∧
      ((compare_collision tri_T sq_S).2 < (compare_collision sq_S tri_T).2 →
        find_collision tri_T sq_S = (compare_collision tri_T sq_S).1) ∧
      ((compare_collision sq_S tri_T).2 < (compare_collision tri_T sq_S).2 →
        find_collision tri_T sq_S = (compare_collision sq_S tri_T).1)) :=
  ⟨⟨by rw [cmp_T_S], by rw [cmp_S_T]⟩,
    find_collision_keeps_smaller_pass tri_T sq_S (by rw [cmp_T_S]) (by rw [cmp_S_T])⟩

/-- **C4 (counterexample).** For unit squares centered at `(0,0)` and
`(1/2, 0)`, the detector reports a collision, but the returned axis has
strictly negative x-component — it is `(-1, 0)`, not approximately `(1, 0)`:
the two passes tie (overlap `1/2` each), so the second pass's axis, oriented
from the second square toward the first, is returned. -/
theorem unit_squares_axis_cex :
    (find_collision sq_origin sq_half).collided = true ∧
    (find_collision sq_origin sq_half).axis.x < 0 := by
  rw [find_O_H]
  exact ⟨rfl, by norm_num⟩

/-- **C4 (amended).** Unit squares centered at `(0,0)` and `(3,0)` do not
collide; unit squares centered at `(0,0)` and `(1/2, 0)` collide with
returned axis exactly `(-1, 0)` (pointing from the second square toward the
first, because the tie between the two passes is resolved in favor of the
second pass, whose axis is not re-negated). -/
theorem unit_squares_collision_eval :
    (find_collision sq_origin sq_three).collided = false ∧
    (find_collision sq_origin sq_half).collided = true ∧
    (find_collision sq_origin sq_half).axis = ⟨-1, 0⟩ := by
  rw [find_O_3, find_O_H]
  exact ⟨rfl, rfl, rfl⟩

/-- **C8.** A degenerate edge — one whose 90°-rotated edge vector is shorter
than the `1e-9` epsilon — is skipped by the separating-axis loop before any
normalization (the loop state passes through unchanged), and every
normalization actually performed divides by a length that is at least
`1e-9`: every axis in the normalized-axis pipeline comes from an edge whose
rotated vector has length `≥ 1e-9` and equals that vector scaled by the
reciprocal of that length. -/
theorem degenerate_axes_skipped :
    (∀ (s1 s2 : List vector_t) (e : vector_t) (rest : List vector_t)
        (m : ℝ) (a : vector_t),
      vec_get_length (axis_of e) < 1e-9 →
      sat_axis_loop s1 s2 (e :: rest) m a = sat_axis_loop s1 s2 rest m a) ∧
    (∀ (shape : List vector_t) (u : vector_t), u ∈ normalized_axes shape →
      ∃ e ∈ get_edges shape, 1e-9 ≤ vec_get_length (axis_of e) ∧
        u = vec_multiply (1 / vec_get_length (axis_of e)) (axis_of e)) := by
  constructor
  · intro s1 s2 e rest m a h
    exact sat_axis_loop_cons_deg s1 s2 e rest m a h
  · intro shape u hu
    unfold normalized_axes at hu
    obtain ⟨e, he, hfe⟩ := List.mem_filterMap.mp hu
    simp only [] at hfe
    by_cases hdeg : vec_get_length (axis_of e) < 1e-9
    · rw [if_pos hdeg] at hfe
      exact absurd hfe (by simp)
    · rw [if_neg hdeg] at hfe
      exact ⟨e, he, not_lt.mp hdeg, (Option.some.inj hfe).symm⟩

/-- Witness for C8: a zero-length edge is skipped with the loop state
unchanged, and the normalized axis `(1,0)` of the unit square comes from an
edge whose rotated vector has length `1 ≥ 1e-9`. -/
theorem degenerate_axes_skipped_witness :
    vec_get_length (axis_of ⟨0, 0⟩) < 1e-9 ∧
    sat_axis_loop [] [] [⟨0, 0⟩] 0 VEC_ZERO = sat_axis_loop [] [] [] 0 VEC_ZERO ∧
    (⟨1, 0⟩ : vector_t) ∈ normalized_axes sq_origin ∧
    ∃ e ∈ get_edges sq_origin, 1e-9 ≤ vec_get_length (axis_of e) ∧
      (⟨1, 0⟩ : vector_t) = vec_multiply (1 / vec_get_length (axis_of e)) (axis_of e) := by
  have hdeg : vec_get_length (axis_of ⟨0, 0⟩) < 1e-9 := by
    rw [vec_get_length_eval (axis_of ⟨0, 0⟩) 0 (le_refl 0) (by norm_num [axis_of])]
    norm_num
  have hmem : (⟨1, 0⟩ : vector_t) ∈ normalized_axes sq_origin := by
    unfold normalized_axes
    rw [edges_sq_origin]
    refine List.mem_filterMap.mpr ⟨⟨0, -1⟩, by norm_num [vector_t.mk.injEq], ?_⟩
    simp only []
    rw [if_neg (by rw [len_0_m1]; norm_num), len_0_m1]
    norm_num [axis_of, vec_multiply]
  exact ⟨hdeg, degenerate_axes_skipped.1 [] [] ⟨0, 0⟩ [] 0 VEC_ZERO hdeg, hmem,
    degenerate_axes_skipped.2 sq_origin ⟨1, 0⟩ hmem⟩

/-- **C10.** If on some tested (non-degenerate) axis — of either pass — the
two shapes' projection intervals merely touch (the maximum projection of one
shape equals the minimum projection of the other), the detector reports no
collision; conversely, whenever a collision is reported, every tested axis
of both passes had strictly overlapping projection intervals. -/
theorem touching_projections_no_collision (s1 s2 : List vector_t) :
    ((∃ e ∈ get_edges s1, edge_nondegenerate e ∧
        ((get_max_min_projections s1 (unit_axis_of e)).x =
            (get_max_min_projections s2 (unit_axis_of e)).y ∨
          (get_max_min_projections s2 (unit_axis_of e)).x =
            (get_max_min_projections s1 (unit_axis_of e)).y)) →
      (find_collision s1 s2).collided = false) ∧
    ((∃ e ∈ get_edges s2, edge_nondegenerate e ∧
        ((get_max_min_projections s2 (unit_axis_of e)).x =
            (get_max_min_projections s1 (unit_axis_of e)).y ∨
          (get_max_min_projections s1 (unit_axis_of e)).x =
            (get_max_min_projections s2 (unit_axis_of e)).y)) →
      (find_collision s1 s2).collided = false) ∧
    ((find_collision s1 s2).collided = true →
      (∀ e ∈ get_edges s1, edge_nondegenerate e →
        (get_max_min_projections s2 (unit_axis_of e)).y <
            (get_max_min_projections s1 (unit_axis_of e)).x ∧
          (get_max_min_projections s1 (unit_axis_of e)).y <
            (get_max_min_projections s2 (unit_axis_of e)).x) ∧
      (∀ e ∈ get_edges s2, edge_nondegenerate e →
        (get_max_min_projections s1 (unit_axis_of e)).y <
            (get_max_min_projections s2 (unit_axis_of e)).x ∧
          (get_max_min_projections s2 (unit_axis_of e)).y <
            (get_max_min_projections s1 (unit_axis_of e)).x)) := by
  refine ⟨?_, ?_, ?_⟩
  · rintro ⟨e, he, hnd, htouch⟩
    have hsep : (compare_collision s1 s2).1.collided = false :=
      compare_collision_not_collided_of_sep s1 s2
        ⟨e, he, hnd, by
          rcases htouch with h | h
          · exact Or.inl (le_of_eq h)
          · exact Or.inr (le_of_eq h)⟩
    rw [find_collision_collided_eq, hsep, Bool.false_and]
  · rintro ⟨e, he, hnd, htouch⟩
    have hsep : (compare_collision s2 s1).1.collided = false :=
      compare_collision_not_collided_of_sep s2 s1
        ⟨e, he, hnd, by
          rcases htouch with h | h
          · exact Or.inl (le_of_eq h)
          · exact Or.inr (le_of_eq h)⟩
    rw [find_collision_collided_eq, hsep, Bool.and_false]
  · intro h
    rw [find_collision_collided_eq] at h
    simp only [Bool.and_eq_true] at h
    obtain ⟨h1, h2⟩ := h
    constructor
    · intro e he hnd
      obtain ⟨m', a', hs⟩ := compare_collision_collided_some s1 s2 h1
      exact ((sat_axis_loop_some_inv s1 s2 (get_edges s1) DBL_MAX VEC_ZERO m' a' hs).2.1
        e he hnd).1
    · intro e he hnd
      obtain ⟨m', a', hs⟩ := compare_collision_collided_some s2 s1 h2
      exact ((sat_axis_loop_some_inv s2 s1 (get_edges s2) DBL_MAX VEC_ZERO m' a' hs).2.1
        e he hnd).1

/-- Witness for C10: the unit squares centered at `(0,0)` and `(1,0)` touch
exactly along `x = 1/2` (the projections on the axis `(1,0)` touch:
max of the first is `1/2` = min of the second), and the detector reports no
collision for them. -/
theorem touching_projections_no_collision_witness :
    (∃ e ∈ get_edges sq_origin, edge_nondegenerate e ∧
      ((get_max_min_projections sq_origin (unit_axis_of e)).x =
          (get_max_min_projections sq_touch (unit_axis_of e)).y ∨
        (get_max_min_projections sq_touch (unit_axis_of e)).x =
          (get_max_min_projections sq_origin (unit_axis_of e)).y)) ∧
    (find_collision sq_origin sq_touch).collided = false := by
  have hex : ∃ e ∈ get_edges sq_origin, edge_nondegenerate e ∧
      ((get_max_min_projections sq_origin (unit_axis_of e)).x =
          (get_max_min_projections sq_touch (unit_axis_of e)).y ∨
        (get_max_min_projections sq_touch (unit_axis_of e)).x =
          (get_max_min_projections sq_origin (unit_axis_of e)).y) := by
    refine ⟨⟨0, -1⟩, by rw [edges_sq_origin]; norm_num [vector_t.mk.injEq], ?_, ?_⟩
    · unfold edge_nondegenerate
      rw [len_0_m1]
      norm_num
    · refine Or.inl ?_
      rw [ue_0_m1, proj_O_right, proj_touch_right]
  exact ⟨hex, (touching_projections_no_collision sq_origin sq_touch).1 hex⟩
